import Mathlib

unseal Rat.mul Rat.add Rat.sub Rat.inv Rat.ofScientific

/-!
Shallow embedding of `src/Ph.cpp` (ESP8266 pH regulation controller).

Modelling conventions:
- `float` values (pH readings, target band, calibration voltages, EEPROM
  cells) are embedded as `ℚ`; the source's decimal literals are exact in `ℚ`.
- `unsigned long` timestamps (32-bit on the target) are embedded as `Nat`
  reduced modulo `2^32`; the C unsigned subtraction `now - last` is the
  explicit `usub32`.
- The mutable globals of the sketch form the `PhState` structure; every
  function of the source that mutates globals becomes a `PhState → PhState`
  function.
- Serial output (`Serial.print`/`println`) is ignored: it never feeds back
  into control state.
- EEPROM is modelled with a RAM buffer cell pair (`eeprom_low`/`eeprom_high`,
  what `EEPROM.get`/`EEPROM.put` touch) and a flash cell pair
  (`eeprom_flash_low`/`eeprom_flash_high`, what `EEPROM.commit` flushes to).
-/

namespace PhCtrl

/-- Source line 18: `const unsigned long valve_activation_time = 2000;`. -/
def valve_activation_time : Nat := 2000

/-- Source line 31: `const unsigned long pH_read_interval = 5000;`. -/
def pH_read_interval : Nat := 5000

/-- Source line 10: `const float calibration_voltage_8_5 = 2.15;`. -/
def calibration_voltage_8_5 : ℚ := 2.15

/-- Source line 11: `const float calibration_voltage_6 = 1.75;`. -/
def calibration_voltage_6 : ℚ := 1.75

/-- 2^32, the modulus of the target's `unsigned long`. -/
def U32 : Nat := 4294967296

/-- C unsigned 32-bit subtraction `a - b` for operands already reduced
mod 2^32, as used in every elapsed-time gate of `loop` (lines 68, 77, 83). -/
def usub32 (a b : Nat) : Nat := (U32 + a - b) % U32

/-- Source lines 184-186, `calculate_calibration_voltages`: derives the
(pH7, pH4) anchor voltages from the pH6 and pH8.5 reference voltages. -/
def calculate_calibration_voltages (v6 v85 : ℚ) : ℚ × ℚ :=
  (v6 + (v85 - v6) / 2.5, v6 - 0.8 * (v85 - v6))

/-- Global `calibration_voltage_7` (line 12) as set by
`calculate_calibration_voltages` in `setup`. -/
def calibration_voltage_7 : ℚ :=
  (calculate_calibration_voltages calibration_voltage_6 calibration_voltage_8_5).1

/-- Global `calibration_voltage_4` (line 13) as set by
`calculate_calibration_voltages` in `setup`. -/
def calibration_voltage_4 : ℚ :=
  (calculate_calibration_voltages calibration_voltage_6 calibration_voltage_8_5).2

/-- The mutable globals of `Ph.cpp`:
valve output pins (lines 16-17, `digitalWrite` level: `true` = HIGH),
valve active flags and shared activation timestamp (lines 33-35),
acquisition timestamp (line 30), target band (lines 21-22), and the
EEPROM cells at `PH_LOW_ADDR`/`PH_HIGH_ADDR` (RAM buffer and flash). -/
structure PhState where
  base_valve_pin : Bool
  acid_valve_pin : Bool
  base_valve_active : Bool
  acid_valve_active : Bool
  last_valve_activation_time : Nat
  last_pH_read_time : Nat
  target_pH_low : ℚ
  target_pH_high : ℚ
  eeprom_low : ℚ
  eeprom_high : ℚ
  eeprom_flash_low : ℚ
  eeprom_flash_high : ℚ
deriving DecidableEq

/-- Source lines 106-113, `read_pH`, with the calibration anchors as
parameters: rescales the raw 10-bit sample to a voltage and applies the
two-point linear model. In `ℚ`, division by zero yields 0 (where the
C++ float division would yield ±infinity or NaN). -/
def read_pH_with (v7 v4 : ℚ) (analog_value : ℤ) : ℚ :=
  let voltage : ℚ := (analog_value : ℚ) / 1023 * 3.3
  7.0 - (voltage - v7) * (7.0 - 4.0) / (v7 - v4)

/-- `read_pH` at the anchors the program actually computes in `setup`. -/
def read_pH (analog_value : ℤ) : ℚ :=
  read_pH_with calibration_voltage_7 calibration_voltage_4 analog_value

/-- Error taxonomy of the spec for acquisition. -/
inductive AcquisitionError
  | CalibrationDegenerate
deriving DecidableEq

/-- The acquisition step of the source presented as a fallible computation:
`read_pH` (lines 106-113) has no error branch whatsoever, so the embedding
always returns `ok` of the computed value, even when the anchors coincide. -/
def read_pH_result (v7 v4 : ℚ) (analog_value : ℤ) : Except AcquisitionError ℚ :=
  Except.ok (read_pH_with v7 v4 analog_value)

/-- Source lines 115-131, `control_pH`: when neither valve is active,
arm the base valve below the band, else the acid valve above the band,
recording the (shared) activation timestamp; otherwise do nothing. -/
def control_pH (current_pH : ℚ) (current_time : Nat) (s : PhState) : PhState :=
  if !s.base_valve_active && !s.acid_valve_active then
    if current_pH < s.target_pH_low then
      { s with base_valve_pin := true
               base_valve_active := true
               last_valve_activation_time := current_time }
    else if current_pH > s.target_pH_high then
      { s with acid_valve_pin := true
               acid_valve_active := true
               last_valve_activation_time := current_time }
    else s
  else s

/-- Source lines 77-81, the base-valve expiry block of `loop`. -/
def deactivate_base (current_time : Nat) (s : PhState) : PhState :=
  if s.base_valve_active = true ∧
      usub32 current_time s.last_valve_activation_time ≥ valve_activation_time then
    { s with base_valve_pin := false, base_valve_active := false }
  else s

/-- Source lines 83-87, the acid-valve expiry block of `loop`. -/
def deactivate_acid (current_time : Nat) (s : PhState) : PhState :=
  if s.acid_valve_active = true ∧
      usub32 current_time s.last_valve_activation_time ≥ valve_activation_time then
    { s with acid_valve_pin := false, acid_valve_active := false }
  else s

/-- Source lines 76-87, the non-blocking valve deactivation block of `loop`:
each active valve is switched off once the unsigned elapsed time since the
shared activation timestamp reaches `valve_activation_time`; the base block
runs first, then the acid block, exactly as in the source. -/
def deactivate_valves (current_time : Nat) (s : PhState) : PhState :=
  deactivate_acid current_time (deactivate_base current_time s)

/-- Source lines 133-139, `save_pH_range`: `EEPROM.put` both band fields
into the EEPROM buffer, then `EEPROM.commit` flushes the buffer to flash. -/
def save_pH_range (s : PhState) : PhState :=
  let s1 := { s with eeprom_low := s.target_pH_low }
  let s2 := { s1 with eeprom_high := s1.target_pH_high }
  { s2 with eeprom_flash_low := s2.eeprom_low, eeprom_flash_high := s2.eeprom_high }

/-- Source lines 141-145, `load_pH_range`: `EEPROM.get` both cells into the
in-memory target band. -/
def load_pH_range (s : PhState) : PhState :=
  { s with target_pH_low := s.eeprom_low, target_pH_high := s.eeprom_high }

/-- C `isspace`: the characters Arduino `String::trim` strips. -/
def isSpaceA (c : Char) : Bool :=
  c = ' ' || c = '\t' || c = '\n' || c = '\x0b' || c = '\x0c' || c = '\r'

/-- Arduino `String::trim` (line 150): drop leading and trailing whitespace. -/
def trimA (s : String) : String :=
  ⟨((s.toList.dropWhile isSpaceA).reverse.dropWhile isSpaceA).reverse⟩

/-- Arduino `String::toLowerCase` (line 151): ASCII lower-casing. -/
def toLowerA (s : String) : String :=
  ⟨s.toList.map (fun c => if 'A' ≤ c ∧ c ≤ 'Z' then Char.ofNat (c.toNat + 32) else c)⟩

/-- Arduino `String::startsWith` (line 153). -/
def startsWithA (s p : String) : Bool :=
  s.toList.take p.toList.length == p.toList

/-- Arduino `String::indexOf(char)` (line 154): first index of the
character, or -1 when absent. -/
def indexOfChar (s : String) (c : Char) : Int :=
  match s.toList.findIdx? (· == c) with
  | some i => (i : Int)
  | none => -1

/-- Arduino `String::substring(l, r)` (line 156): characters `[l, r)`.
Both call sites guarantee `l ≤ r ≤ length`, where drop/take is exact. -/
def substringA (s : String) (l r : Nat) : String :=
  ⟨(s.toList.drop l).take (r - l)⟩

/-- Arduino `String::substring(l)` (line 157): characters from `l` on. -/
def substringFrom (s : String) (l : Nat) : String :=
  ⟨s.toList.drop l⟩

/-- Numeric value of a digit run. -/
def digitsToNat (ds : List Char) : Nat :=
  ds.foldl (fun acc c => acc * 10 + (c.toNat - 48)) 0

/-- Arduino `String::toFloat` = C `atof` (lines 158-159), on decimal
notation: skip leading whitespace, optional sign, integer digits, optional
point and fraction digits; anything else ends the conversion; no digits at
all yields 0. (Exponent notation is not exercised by any claim and is not
modelled.) -/
def atofQ (s : String) : ℚ :=
  let cs := s.toList.dropWhile isSpaceA
  let signAndRest : ℚ × List Char :=
    match cs with
    | '-' :: rest => (-1, rest)
    | '+' :: rest => (1, rest)
    | _ => (1, cs)
  let ip := signAndRest.2.takeWhile Char.isDigit
  let afterInt := signAndRest.2.dropWhile Char.isDigit
  let fp : List Char :=
    match afterInt with
    | '.' :: rest => rest.takeWhile Char.isDigit
    | _ => []
  signAndRest.1 * ((digitsToNat ip : ℚ) + (digitsToNat fp : ℚ) / ((10 ^ fp.length : Nat) : ℚ))

/-- Source lines 147-175, `handle_serial_input`, for one available input
line: normalize, then dispatch on `setph`/`getph`/`save`/`load`; the
`setph` arm requires a comma strictly after position 5, parses the two
substrings with `toFloat` (parse-or-zero) and saves; otherwise only a
message is printed and the state is untouched. -/
def handle_serial_input (input : String) (s : PhState) : PhState :=
  let command := toLowerA (trimA input)
  if startsWithA command "setph" then
    let comma_index := indexOfChar command ','
    if comma_index > 5 then
      let low_str := substringA command 5 comma_index.toNat
      let high_str := substringFrom command (comma_index.toNat + 1)
      let s1 := { s with target_pH_low := atofQ low_str
                         target_pH_high := atofQ high_str }
      save_pH_range s1
    else s
  else if command = "getph" then s
  else if command = "save" then save_pH_range s
  else if command = "load" then load_pH_range s
  else s

/-- One pass of `loop` (lines 64-90): serial poll, gated acquisition and
control, then the valve expiry block. `analog_value` is what `analogRead`
returns this pass, `line` the pending serial line if any. -/
def loop_once (current_time : Nat) (analog_value : ℤ) (line : Option String)
    (s : PhState) : PhState :=
  let s1 := match line with
    | some l => handle_serial_input l s
    | none => s
  let s2 :=
    if usub32 current_time s1.last_pH_read_time ≥ pH_read_interval then
      control_pH (read_pH analog_value) current_time
        { s1 with last_pH_read_time := current_time }
    else s1
  deactivate_valves current_time s2

/-- Events acting on controller state: a control evaluation with reading
`r` at time `now`, a valve-expiry check at time `now`, or a serial line. -/
inductive LoopEvent
  | control (r : ℚ) (now : Nat)
  | tick (now : Nat)
  | serial (line : String)

/-- Apply one event. -/
def step (s : PhState) : LoopEvent → PhState
  | .control r now => control_pH r now s
  | .tick now => deactivate_valves now s
  | .serial line => handle_serial_input line s

/-- Run a sequence of events from a state. -/
def run (s : PhState) (es : List LoopEvent) : PhState :=
  es.foldl step s

/-- The state after `setup` (lines 47-62): pins driven LOW, valve flags
false (their initializers, lines 34-35), timestamps 0, the band globals
initialized to 6 and 8.5 (lines 21-22) and then overwritten by
`load_pH_range` from the EEPROM cells `elow`, `ehigh`. -/
def boot_state (elow ehigh : ℚ) : PhState :=
  load_pH_range
    { base_valve_pin := false
      acid_valve_pin := false
      base_valve_active := false
      acid_valve_active := false
      last_valve_activation_time := 0
      last_pH_read_time := 0
      target_pH_low := 6
      target_pH_high := 8.5
      eeprom_low := elow
      eeprom_high := ehigh
      eeprom_flash_low := elow
      eeprom_flash_high := ehigh }

/-- Mutual exclusion of the two valves. -/
def valveMutex (s : PhState) : Prop :=
  ¬(s.base_valve_active = true ∧ s.acid_valve_active = true)

theorem handle_serial_input_valve_frame (line : String) (s : PhState) :
    (handle_serial_input line s).base_valve_active = s.base_valve_active ∧
    (handle_serial_input line s).acid_valve_active = s.acid_valve_active := by
  simp only [handle_serial_input, save_pH_range, load_pH_range]
  constructor <;> (repeat' split) <;> simp

theorem control_pH_mutex (r : ℚ) (now : Nat) (s : PhState) (h : valveMutex s) :
    valveMutex (control_pH r now s) := by
  unfold control_pH
  split
  case isTrue hcond =>
    simp only [Bool.and_eq_true, Bool.not_eq_true'] at hcond
    split
    · simp [valveMutex, hcond.2]
    · split
      · simp [valveMutex, hcond.1]
      · exact h
  case isFalse _ => exact h

theorem deactivate_base_active_le (now : Nat) (s : PhState) :
    ((deactivate_base now s).base_valve_active = true → s.base_valve_active = true) ∧
    ((deactivate_base now s).acid_valve_active = true → s.acid_valve_active = true) := by
  unfold deactivate_base
  split <;> simp

theorem deactivate_acid_active_le (now : Nat) (s : PhState) :
    ((deactivate_acid now s).base_valve_active = true → s.base_valve_active = true) ∧
    ((deactivate_acid now s).acid_valve_active = true → s.acid_valve_active = true) := by
  unfold deactivate_acid
  split <;> simp

theorem deactivate_valves_mutex (now : Nat) (s : PhState) (h : valveMutex s) :
    valveMutex (deactivate_valves now s) := by
  unfold valveMutex at *
  intro hcon
  exact h ⟨(deactivate_base_active_le now s).1
            ((deactivate_acid_active_le now (deactivate_base now s)).1 hcon.1),
          (deactivate_base_active_le now s).2
            ((deactivate_acid_active_le now (deactivate_base now s)).2 hcon.2)⟩

theorem step_mutex (s : PhState) (e : LoopEvent) (h : valveMutex s) :
    valveMutex (step s e) := by
  cases e with
  | control r now => exact control_pH_mutex r now s h
  | tick now => exact deactivate_valves_mutex now s h
  | serial line =>
    unfold valveMutex at *
    intro hcon
    exact h ⟨(handle_serial_input_valve_frame line s).1 ▸ hcon.1,
             (handle_serial_input_valve_frame line s).2 ▸ hcon.2⟩

theorem run_mutex (es : List LoopEvent) (s : PhState) (h : valveMutex s) :
    valveMutex (run s es) := by
  induction es generalizing s with
  | nil => exact h
  | cons e es ih => exact ih (step s e) (step_mutex s e h)

/-- C1: in every state reachable from boot (both valve flags false) by any
sequence of control evaluations, expiry checks (and serial commands, which
never touch the valves), at most one of the acid valve and the base valve
is active. -/
theorem mutual_exclusion_reachable (es : List LoopEvent) (elow ehigh : ℚ) :
    ¬((run (boot_state elow ehigh) es).base_valve_active = true ∧
      (run (boot_state elow ehigh) es).acid_valve_active = true) :=
  run_mutex es (boot_state elow ehigh) (by simp [valveMutex, boot_state, load_pH_range])

/-- C2: with both valves idle, the control evaluation is a three-way
bang-bang decision: below the band it arms exactly the base valve, above
the band exactly the acid valve, inside the band it leaves the state
untouched; in the first two cases the shared activation timestamp is set
to the evaluation time. -/
theorem bang_bang_decision (r : ℚ) (now : Nat) (s : PhState)
    (hb : s.base_valve_active = false) (ha : s.acid_valve_active = false) :
    (r < s.target_pH_low →
      control_pH r now s =
        { s with base_valve_pin := true, base_valve_active := true,
                 last_valve_activation_time := now } ∧
      (control_pH r now s).acid_valve_active = false) ∧
    (¬r < s.target_pH_low → r > s.target_pH_high →
      control_pH r now s =
        { s with acid_valve_pin := true, acid_valve_active := true,
                 last_valve_activation_time := now } ∧
      (control_pH r now s).base_valve_active = false) ∧
    (s.target_pH_low ≤ r → r ≤ s.target_pH_high → control_pH r now s = s) := by
  refine ⟨fun h1 => ?_, fun h1 h2 => ?_, fun h1 h2 => ?_⟩
  · simp [control_pH, hb, ha, h1]
  · simp [control_pH, hb, ha, h1, h2]
  · simp [control_pH, hb, ha, not_lt.mpr h1, not_lt.mpr h2]

/-- Witness for C2 at the concrete reading 5 against band [6, 8.5]. -/
theorem bang_bang_decision_witness :
    control_pH 5 100 (boot_state 6 8.5) =
      { boot_state 6 8.5 with
          base_valve_pin := true
          base_valve_active := true
          last_valve_activation_time := 100 } :=
  ((bang_bang_decision 5 100 (boot_state 6 8.5) (by decide) (by decide)).1 (by decide)).1

/-- C7: when at least one valve is active, the control evaluation is a
strict no-op: the state (pins, flags, timestamps, band, storage) is
returned unchanged. -/
theorem interlock_no_op (r : ℚ) (now : Nat) (s : PhState)
    (h : s.base_valve_active = true ∨ s.acid_valve_active = true) :
    control_pH r now s = s := by
  unfold control_pH
  rcases h with h | h <;> simp [h]

/-- Witness for C7: a control evaluation against an active base valve. -/
theorem interlock_no_op_witness :
    control_pH 5 100 { boot_state 6 8.5 with base_valve_active := true } =
      { boot_state 6 8.5 with base_valve_active := true } :=
  interlock_no_op 5 100 _ (Or.inl rfl)

/-- C4 (code behavior at the claimed failing condition): `read_pH` has no
error branch at all, so acquisition never signals `CalibrationDegenerate`,
even when the two calibration anchors coincide; the division by zero is
performed silently. -/
theorem read_pH_never_signals_degenerate (v7 v4 : ℚ) (a : ℤ) :
    ∃ q, read_pH_result v7 v4 a = Except.ok q :=
  ⟨read_pH_with v7 v4 a, rfl⟩

/-- C6: saving the in-memory target band to the EEPROM and loading it back
restores exactly the saved band (exact in the `ℚ` embedding of `float`). -/
theorem save_load_round_trip (s : PhState) :
    (load_pH_range (save_pH_range s)).target_pH_low = s.target_pH_low ∧
    (load_pH_range (save_pH_range s)).target_pH_high = s.target_pH_high :=
  ⟨rfl, rfl⟩

/-- C8: the calibration derivation interpolates the pH7 anchor
proportionally to the pH distance from 7 and extrapolates the pH4 anchor
with the fixed 0.8 multiplier, and at the reference points
(6.0 pH, 1.75 V) and (8.5 pH, 2.15 V) it yields exactly 1.91 V and 1.43 V. -/
theorem calibration_derivation :
    calibration_voltage_6 = 1.75 ∧ calibration_voltage_8_5 = 2.15 ∧
    calculate_calibration_voltages calibration_voltage_6 calibration_voltage_8_5 =
      (calibration_voltage_6 + (calibration_voltage_8_5 - calibration_voltage_6) / 2.5,
       calibration_voltage_6 - 0.8 * (calibration_voltage_8_5 - calibration_voltage_6)) ∧
    calibration_voltage_7 = 1.91 ∧ calibration_voltage_4 = 1.43 :=
  ⟨rfl, rfl, rfl, by decide, by decide⟩

/-- C5: a valve whose (shared) activation timestamp is `t` is deactivated
(output driven low, active flag cleared) by any expiry check at a time
`now` with unsigned elapsed time `now - t ≥ 2000 ms`, and is left active
(pin untouched) by any expiry check with elapsed time `< 2000 ms`. -/
theorem dwell_timing (t now : Nat) (s : PhState)
    (ht : s.last_valve_activation_time = t) :
    (s.base_valve_active = true →
      (valve_activation_time ≤ usub32 now t →
        (deactivate_valves now s).base_valve_active = false ∧
        (deactivate_valves now s).base_valve_pin = false) ∧
      (usub32 now t < valve_activation_time →
        (deactivate_valves now s).base_valve_active = true ∧
        (deactivate_valves now s).base_valve_pin = s.base_valve_pin)) ∧
    (s.acid_valve_active = true →
      (valve_activation_time ≤ usub32 now t →
        (deactivate_valves now s).acid_valve_active = false ∧
        (deactivate_valves now s).acid_valve_pin = false) ∧
      (usub32 now t < valve_activation_time →
        (deactivate_valves now s).acid_valve_active = true ∧
        (deactivate_valves now s).acid_valve_pin = s.acid_valve_pin)) := by
  subst ht
  simp only [deactivate_valves, deactivate_base, deactivate_acid]
  refine ⟨fun hb => ⟨fun hge => ?_, fun hlt => ?_⟩, fun ha => ⟨fun hge => ?_, fun hlt => ?_⟩⟩ <;>
    (repeat' split) <;> simp_all <;> omega

/-- Witness for C5: a base valve armed at time 0 is deactivated by the
expiry check at time 2000 and left active by the one at time 1999. -/
theorem dwell_timing_witness :
    ((deactivate_valves 2000 { boot_state 6 8.5 with
        base_valve_pin := true
        base_valve_active := true
        last_valve_activation_time := 0 }).base_valve_active = false ∧
      (deactivate_valves 2000 { boot_state 6 8.5 with
        base_valve_pin := true
        base_valve_active := true
        last_valve_activation_time := 0 }).base_valve_pin = false) ∧
    (deactivate_valves 1999 { boot_state 6 8.5 with
        base_valve_pin := true
        base_valve_active := true
        last_valve_activation_time := 0 }).base_valve_active = true :=
  ⟨((dwell_timing 0 2000 _ rfl).1 (by decide)).1 (by decide),
   (((dwell_timing 0 1999 _ rfl).1 (by decide)).2 (by decide)).1⟩

theorem control_noop (r : ℚ) (now : Nat) (s : PhState)
    (h : s.base_valve_active = true ∨ s.acid_valve_active = true) :
    control_pH r now s = s := by
  unfold control_pH
  rcases h with h | h <;> simp [h]

theorem control_arm_base (r : ℚ) (now : Nat) (s : PhState)
    (hb : s.base_valve_active = false) (ha : s.acid_valve_active = false)
    (hlo : r < s.target_pH_low) :
    control_pH r now s =
      { s with base_valve_pin := true, base_valve_active := true,
               last_valve_activation_time := now } := by
  simp [control_pH, hb, ha, hlo]

theorem control_arm_acid (r : ℚ) (now : Nat) (s : PhState)
    (hb : s.base_valve_active = false) (ha : s.acid_valve_active = false)
    (hlo : ¬r < s.target_pH_low) (hhi : r > s.target_pH_high) :
    control_pH r now s =
      { s with acid_valve_pin := true, acid_valve_active := true,
               last_valve_activation_time := now } := by
  simp [control_pH, hb, ha, hlo, hhi]

theorem control_inband (r : ℚ) (now : Nat) (s : PhState)
    (hb : s.base_valve_active = false) (ha : s.acid_valve_active = false)
    (hlo : ¬r < s.target_pH_low) (hhi : ¬r > s.target_pH_high) :
    control_pH r now s = s := by
  simp [control_pH, hb, ha, hlo, hhi]

theorem deactivate_acid_base_fields (now : Nat) (x : PhState) :
    (deactivate_acid now x).base_valve_active = x.base_valve_active ∧
    (deactivate_acid now x).base_valve_pin = x.base_valve_pin := by
  unfold deactivate_acid
  split <;> simp

theorem deactivate_base_acid_fields (now : Nat) (x : PhState) :
    (deactivate_base now x).acid_valve_active = x.acid_valve_active ∧
    (deactivate_base now x).last_valve_activation_time = x.last_valve_activation_time := by
  unfold deactivate_base
  split <;> simp

theorem deactivate_base_pos (now : Nat) (x : PhState) (h : x.base_valve_active = true)
    (hge : valve_activation_time ≤ usub32 now x.last_valve_activation_time) :
    deactivate_base now x = { x with base_valve_pin := false, base_valve_active := false } := by
  unfold deactivate_base
  rw [if_pos ⟨h, hge⟩]

theorem deactivate_base_stay (now : Nat) (x : PhState)
    (h : ¬(x.base_valve_active = true ∧
        valve_activation_time ≤ usub32 now x.last_valve_activation_time)) :
    deactivate_base now x = x := by
  unfold deactivate_base
  rw [if_neg h]

theorem deactivate_acid_pos (now : Nat) (x : PhState) (h : x.acid_valve_active = true)
    (hge : valve_activation_time ≤ usub32 now x.last_valve_activation_time) :
    deactivate_acid now x = { x with acid_valve_pin := false, acid_valve_active := false } := by
  unfold deactivate_acid
  rw [if_pos ⟨h, hge⟩]

theorem deactivate_acid_stay (now : Nat) (x : PhState)
    (h : ¬(x.acid_valve_active = true ∧
        valve_activation_time ≤ usub32 now x.last_valve_activation_time)) :
    deactivate_acid now x = x := by
  unfold deactivate_acid
  rw [if_neg h]

/-- C10: the activation timestamp is a single shared field: arming either
valve writes the evaluation time into that one field, and each valve's
expiry check deactivates exactly when the unsigned elapsed time since that
same shared field reaches the dwell time. -/
theorem shared_activation_timestamp (r : ℚ) (now : Nat) (s : PhState) :
    ((control_pH r now s).base_valve_active = true → s.base_valve_active = false →
      (control_pH r now s).last_valve_activation_time = now) ∧
    ((control_pH r now s).acid_valve_active = true → s.acid_valve_active = false →
      (control_pH r now s).last_valve_activation_time = now) ∧
    (s.base_valve_active = true →
      ((deactivate_valves now s).base_valve_active = false ↔
        valve_activation_time ≤ usub32 now s.last_valve_activation_time)) ∧
    (s.acid_valve_active = true →
      ((deactivate_valves now s).acid_valve_active = false ↔
        valve_activation_time ≤ usub32 now s.last_valve_activation_time)) := by
  refine ⟨fun h1 h2 => ?_, fun h1 h2 => ?_, fun h1 => ?_, fun h1 => ?_⟩
  · by_cases ha : s.acid_valve_active = true
    · rw [control_noop r now s (Or.inr ha)] at h1
      exact absurd h1 (by simp [h2])
    · have ha' : s.acid_valve_active = false := by simpa using ha
      by_cases hlo : r < s.target_pH_low
      · rw [control_arm_base r now s h2 ha' hlo]
      · by_cases hhi : r > s.target_pH_high
        · rw [control_arm_acid r now s h2 ha' hlo hhi] at h1
          simp [h2] at h1
        · rw [control_inband r now s h2 ha' hlo hhi] at h1
          exact absurd h1 (by simp [h2])
  · by_cases hb : s.base_valve_active = true
    · rw [control_noop r now s (Or.inl hb)] at h1
      exact absurd h1 (by simp [h2])
    · have hb' : s.base_valve_active = false := by simpa using hb
      by_cases hlo : r < s.target_pH_low
      · rw [control_arm_base r now s hb' h2 hlo] at h1
        simp [h2] at h1
      · by_cases hhi : r > s.target_pH_high
        · rw [control_arm_acid r now s hb' h2 hlo hhi]
        · rw [control_inband r now s hb' h2 hlo hhi] at h1
          exact absurd h1 (by simp [h2])
  · show (deactivate_acid now (deactivate_base now s)).base_valve_active = false ↔ _
    rw [(deactivate_acid_base_fields now (deactivate_base now s)).1]
    by_cases hel : valve_activation_time ≤ usub32 now s.last_valve_activation_time
    · rw [deactivate_base_pos now s h1 hel]
      simp [hel]
    · rw [deactivate_base_stay now s (fun hc => hel hc.2)]
      simp [h1, hel]
  · show (deactivate_acid now (deactivate_base now s)).acid_valve_active = false ↔ _
    have hacid := (deactivate_base_acid_fields now s).1
    have hlast := (deactivate_base_acid_fields now s).2
    by_cases hel : valve_activation_time ≤ usub32 now s.last_valve_activation_time
    · rw [deactivate_acid_pos now (deactivate_base now s) (hacid.trans h1)
        (by rw [hlast]; exact hel)]
      simp [hel]
    · rw [deactivate_acid_stay now (deactivate_base now s)
        (fun hc => hel (hlast ▸ hc.2))]
      rw [hacid, h1]
      simp [hel]

/-- Witness for C10: arming the base valve at time 100 writes 100 into the
shared activation timestamp. -/
theorem shared_activation_timestamp_witness :
    (control_pH 5 100 (boot_state 6 8.5)).last_valve_activation_time = 100 :=
  (shared_activation_timestamp 5 100 (boot_state 6 8.5)).1 (by decide) (by decide)

/-- C9: the unsigned 32-bit subtraction used by every elapsed-time gate
recovers the true elapsed time `e` from wrapped timestamps (for any
`t, e < 2^32`), so both the dwell gate and the acquisition gate decide
correctly across the clock's overflow boundary. -/
theorem wraparound_elapsed (t e : Nat) (ht : t < U32) (he : e < U32) :
    usub32 ((t + e) % U32) t = e ∧
    (valve_activation_time ≤ usub32 ((t + e) % U32) t ↔ valve_activation_time ≤ e) ∧
    (pH_read_interval ≤ usub32 ((t + e) % U32) t ↔ pH_read_interval ≤ e) := by
  have h1 : usub32 ((t + e) % U32) t = e := by
    unfold usub32 U32 at *
    omega
  exact ⟨h1, by rw [h1], by rw [h1]⟩

/-- Witness for C9: a timestamp 1000 ms before the wrap point and an
elapsed time of 5000 ms that crosses the wrap. -/
theorem wraparound_elapsed_witness :
    usub32 ((4294966296 + 5000) % U32) 4294966296 = 5000 :=
  (wraparound_elapsed 4294966296 5000 (by decide) (by decide)).1

/-- C3 counterexample: the malformed line `setph abc,7.5` (non-numeric low
field, well-placed comma) does NOT leave the in-memory band unchanged: the
code parses `abc` as 0, sets the band to (0, 7.5) and persists it. -/
theorem setph_malformed_mutates_band :
    (handle_serial_input "setph abc,7.5" (boot_state 6 8.5)).target_pH_low ≠
      (boot_state 6 8.5).target_pH_low ∧
    (handle_serial_input "setph abc,7.5" (boot_state 6 8.5)).target_pH_low = 0 ∧
    (handle_serial_input "setph abc,7.5" (boot_state 6 8.5)).target_pH_high = 7.5 ∧
    (handle_serial_input "setph abc,7.5" (boot_state 6 8.5)).eeprom_flash_low = 0 :=
  ⟨by decide, by decide, by decide, by decide⟩

/-- C3 (amended): a `setph` line whose comma is missing or misplaced
(index ≤ 5 in the normalized command) is rejected with a usage message and
mutates nothing; a well-placed comma with non-numeric fields is instead
parsed with the parse-or-zero conversion and the band is mutated and
persisted — in particular `setph abc,7.5` sets the band to (0, 7.5). -/
theorem setph_malformed_handling :
    (∀ (line : String) (s : PhState),
      startsWithA (toLowerA (trimA line)) "setph" = true →
      indexOfChar (toLowerA (trimA line)) ',' ≤ 5 →
      handle_serial_input line s = s) ∧
    (∀ s : PhState,
      handle_serial_input "setph abc,7.5" s =
        save_pH_range { s with target_pH_low := 0, target_pH_high := 7.5 }) := by
  constructor
  · intro line s hstart hcomma
    simp only [handle_serial_input]
    rw [if_pos hstart, if_neg (not_lt.mpr hcomma)]
  · intro s
    have h1 : toLowerA (trimA "setph abc,7.5") = "setph abc,7.5" := by decide
    simp only [handle_serial_input, h1]
    rw [if_pos (by decide), if_pos (by decide)]
    have h2 : atofQ (substringA "setph abc,7.5" 5
        (indexOfChar "setph abc,7.5" ',').toNat) = 0 := by decide
    have h3 : atofQ (substringFrom "setph abc,7.5"
        ((indexOfChar "setph abc,7.5" ',').toNat + 1)) = 7.5 := by decide
    rw [h2, h3]

/-- Witness for C3 (amended) at the comma-less line `setph 9`. -/
theorem setph_malformed_handling_witness :
    handle_serial_input "setph 9" (boot_state 6 8.5) = boot_state 6 8.5 :=
  setph_malformed_handling.1 "setph 9" (boot_state 6 8.5) (by decide) (by decide)

end PhCtrl
